import Mathlib

/-!
Verification development for the financial-calculation core in
`src/backend-rust/src/calculators.rs` and `src/backend-rust/src/models.rs`.

Modelling conventions:
* Rust `f64` values are modelled as exact rationals (`ℚ`).  All the
  branch conditions and formulas of the source are algebraic except for
  `f64::ln` (used only by `calculate_debt_payoff`), which is therefore
  passed to that function as an explicit parameter `lnq : ℚ → ℚ`;
  theorems about the logarithmic branch quantify over `lnq`.
* `f64::round` rounds half away from zero (`f64round`); the source's
  two-decimal and one-decimal roundings `(x * 100.0).round() / 100.0`
  and `(x * 10.0).round() / 10.0` are `round2` and `round1`.
* Rust's saturating float-to-integer casts `as i32` / `as u32` are
  `asI32` / `asU32` (truncation toward zero, clamped to the integer
  type's range).
* `f64::powf` is modelled by `powfq`, exact whenever the exponent is a
  nonnegative integer, which covers every exponent reached in this
  development; `f64::powi` is `zpow` on `ℚ`.
* The chart renderer `create_bar_chart` is modelled down to the geometry
  it emits (per-bar x, y, width, height, colour, labels); the final
  serialization of those numbers into SVG text is not modelled, so a
  chart value is either the structured bar data or a raw markup string
  (the sentinel `"<svg></svg>"` literal of the debt-payoff branch).
-/

namespace TelegramGame

/-- Rust `f64::round`: nearest integer, ties away from zero. -/
def f64round (x : ℚ) : ℤ :=
  if 0 ≤ x then ⌊x + 1 / 2⌋ else ⌈x - 1 / 2⌉

/-- The source's two-decimal rounding `(x * 100.0).round() / 100.0`. -/
def round2 (x : ℚ) : ℚ := (f64round (x * 100) : ℚ) / 100

/-- The source's one-decimal rounding `(x * 10.0).round() / 10.0`. -/
def round1 (x : ℚ) : ℚ := (f64round (x * 10) : ℚ) / 10

/-- Truncation toward zero, the rounding used by Rust `as` casts from
floats to integers. -/
def ratTrunc (x : ℚ) : ℤ := if 0 ≤ x then ⌊x⌋ else ⌈x⌉

/-- Rust `f64 as i32`: truncate toward zero, saturating at the `i32`
range. -/
def asI32 (x : ℚ) : ℤ := max (-(2 ^ 31)) (min (2 ^ 31 - 1) (ratTrunc x))

/-- Rust `f64 as u32` applied after `.ceil()`: ceiling, then clamp to the
`u32` range. -/
def ceilAsU32 (x : ℚ) : ℕ := (max 0 (min (2 ^ 32 - 1) ⌈x⌉)).toNat

/-- Models Rust `f64::powf` on the exponents reached in this development:
whenever the exponent is a nonnegative integer the result is the exact
power; other exponents (whose source results are irrational) are outside
the modelled domain and map to 0. -/
def powfq (x y : ℚ) : ℚ :=
  if 0 ≤ y.num ∧ y.den = 1 then x ^ y.num.toNat else 0

/-- `get_currency_symbol` from `calculators.rs`. -/
def get_currency_symbol (currency : String) : String :=
  if currency = "EUR" then "€"
  else if currency = "USD" then "$"
  else if currency = "UAH" then "₴"
  else if currency = "BTC" then "₿"
  else "€"

/-- One bar of the rendered chart: the geometry and text emitted by the
loop body of `create_bar_chart` (`x`, `y`, `width`, `height` of the
`rect`, its colour, the category label, and the rounded value displayed
above the bar). -/
structure ChartBar where
  x : ℤ
  y : ℤ
  w : ℤ
  h : ℤ
  color : String
  label : String
  shownValue : ℤ
deriving Repr, DecidableEq, Inhabited

/-- A chart field of a response: either a raw markup string (the
`"<svg></svg>"` sentinel of the debt-payoff branch) or the structured
content of `create_bar_chart`. -/
inductive ChartMarkup where
  | rawSvg (s : String)
  | barChart (title : String) (maxVal scale : ℚ) (bars : List ChartBar)
deriving Repr, DecidableEq, Inhabited

/-- The bars of a chart (empty for a raw markup string). -/
def ChartMarkup.bars : ChartMarkup → List ChartBar
  | .rawSvg _ => []
  | .barChart _ _ _ bs => bs

/-- `max_val` of `create_bar_chart`:
`values.iter().cloned().fold(0.0, f64::max)`. -/
def chartMaxVal (values : List ℚ) : ℚ := values.foldl max 0

/-- `scale` of `create_bar_chart` (`chart_height` is `300 - 40*2 = 220`). -/
def chartScale (values : List ℚ) : ℚ :=
  if 0 < chartMaxVal values then 220 / chartMaxVal values else 1

/-- `create_bar_chart` from `calculators.rs`, modelled down to the
geometry of the emitted elements (canvas 400×300, padding 40). -/
def create_bar_chart (title : String) (labels : List String)
    (values : List ℚ) (colors : List String) : ChartMarkup :=
  let height : ℤ := 300
  let padding : ℤ := 40
  let chart_width : ℤ := 400 - padding * 2
  let scale := chartScale values
  let bar_width : ℤ := chart_width / (labels.length : ℤ) - 10
  let bars := (labels.zip values).enum.map (fun p =>
    let i : ℕ := p.1
    let bh := asI32 (p.2.2 * scale)
    { x := padding + (i : ℤ) * (bar_width + 10) + 5
      y := height - padding - bh
      w := bar_width
      h := bh
      color := colors.getD i "#3498db"
      label := p.2.1
      shownValue := f64round p.2.2 : ChartBar })
  ChartMarkup.barChart title (chartMaxVal values) scale bars

/-- `InvestmentRequest` from `models.rs`. -/
structure InvestmentRequest where
  initial_amount : ℚ
  monthly_contribution : ℚ
  annual_return : ℚ
  period : ℚ
  currency : String

/-- `InvestmentResponse` from `models.rs`. -/
structure InvestmentResponse where
  future_value : ℚ
  total_contributions : ℚ
  total_gain : ℚ
  roi : ℚ
  currency_symbol : String
  chart : ChartMarkup

/-- `calculate_investment` from `calculators.rs`. -/
def calculate_investment (req : InvestmentRequest) : InvestmentResponse :=
  let r := req.annual_return / 100 / 12
  let n : ℤ := asI32 (req.period * 12)
  let fv :=
    if 0 < r then
      req.initial_amount * (1 + r) ^ n
        + req.monthly_contribution * (((1 + r) ^ n - 1) / r)
    else
      req.initial_amount + req.monthly_contribution * (n : ℚ)
  let total_inv := req.initial_amount + req.monthly_contribution * (n : ℚ)
  let gain := fv - total_inv
  let roi := if 0 < total_inv then gain / total_inv * 100 else 0
  let chart := create_bar_chart "Структура капіталу" ["Внески", "Прибуток"]
    [total_inv, gain] ["#3498db", "#2ecc71"]
  { future_value := round2 fv
    total_contributions := round2 total_inv
    total_gain := round2 gain
    roi := round1 roi
    currency_symbol := get_currency_symbol req.currency
    chart := chart }

/-- `CreditRequest` from `models.rs`. -/
structure CreditRequest where
  amount : ℚ
  rate : ℚ
  term : ℚ
  currency : String

/-- `CreditResponse` from `models.rs`. -/
structure CreditResponse where
  monthly_payment : ℚ
  total_payment : ℚ
  overpayment : ℚ
  currency_symbol : String
  chart : ChartMarkup

/-- `calculate_credit` from `calculators.rs`. -/
def calculate_credit (req : CreditRequest) : CreditResponse :=
  let r := req.rate / 100 / 12
  let n := req.term * 12
  let pmt :=
    if 0 < r ∧ 0 < n then
      req.amount * (r * powfq (1 + r) n) / (powfq (1 + r) n - 1)
    else if 0 < n then
      req.amount / n
    else
      0
  let total := pmt * n
  let overpayment := total - req.amount
  let chart := create_bar_chart "Структура виплат" ["Тіло", "Переплата"]
    [req.amount, overpayment] ["#3498db", "#e74c3c"]
  { monthly_payment := round2 pmt
    total_payment := round2 total
    overpayment := round2 overpayment
    currency_symbol := get_currency_symbol req.currency
    chart := chart }

/-- `DebtPayoffRequest` from `models.rs`. -/
structure DebtPayoffRequest where
  balance : ℚ
  interest_rate : ℚ
  monthly_payment : ℚ
  extra_payment : ℚ
  currency : String

/-- `DebtPayoffResponse` from `models.rs` (`months` is a `u32`). -/
structure DebtPayoffResponse where
  months : ℕ
  total_paid : ℚ
  total_interest : ℚ
  currency_symbol : String
  chart : ChartMarkup

/-- The continuous month count of the amortizing branch of
`calculate_debt_payoff` (the source's
`let months = (p / (p - req.balance * r)).ln() / (1.0 + r).ln()`),
with the logarithm passed as the parameter `lnq`. -/
def debtMonths (lnq : ℚ → ℚ) (req : DebtPayoffRequest) : ℚ :=
  let r := req.interest_rate / 100 / 12
  let p := req.monthly_payment + req.extra_payment
  lnq (p / (p - req.balance * r)) / lnq (1 + r)

/-- `calculate_debt_payoff` from `calculators.rs`.  The natural
logarithm used on the amortizing branch is transcendental, so it is
taken as the explicit parameter `lnq`; every theorem about this
function quantifies over `lnq`. -/
def calculate_debt_payoff (lnq : ℚ → ℚ) (req : DebtPayoffRequest) :
    DebtPayoffResponse :=
  let r := req.interest_rate / 100 / 12
  let p := req.monthly_payment + req.extra_payment
  if p ≤ req.balance * r then
    { months := 999
      total_paid := 0
      total_interest := 0
      currency_symbol := get_currency_symbol req.currency
      chart := ChartMarkup.rawSvg "<svg></svg>" }
  else
    let months := debtMonths lnq req
    let total_paid := p * months
    let total_interest := total_paid - req.balance
    let chart := create_bar_chart "Структура боргу" ["Борг", "Відсотки"]
      [req.balance, total_interest] ["#3498db", "#e74c3c"]
    { months := ceilAsU32 months
      total_paid := round2 total_paid
      total_interest := round2 total_interest
      currency_symbol := get_currency_symbol req.currency
      chart := chart }

/-- `EmergencyFundRequest` from `models.rs`. -/
structure EmergencyFundRequest where
  monthly_expenses : ℚ
  months_coverage : ℚ
  current_savings : ℚ
  monthly_contribution : ℚ
  currency : String

/-- `EmergencyFundResponse` from `models.rs`. -/
structure EmergencyFundResponse where
  target_amount : ℚ
  remaining_amount : ℚ
  months_to_target : ℚ
  currency_symbol : String
  chart : ChartMarkup

/-- `calculate_emergency_fund` from `calculators.rs`. -/
def calculate_emergency_fund (req : EmergencyFundRequest) :
    EmergencyFundResponse :=
  let target := req.monthly_expenses * req.months_coverage
  let remaining := max (target - req.current_savings) 0
  let months_to_target :=
    if 0 < req.monthly_contribution then remaining / req.monthly_contribution
    else -1
  let chart := create_bar_chart "Статус подушки" ["Наявне", "Ціль"]
    [req.current_savings, target] ["#3498db", "#f1c40f"]
  { target_amount := round2 target
    remaining_amount := round2 remaining
    months_to_target := round1 months_to_target
    currency_symbol := get_currency_symbol req.currency
    chart := chart }



/-! Helper lemmas for evaluating the rounding and cast functions on
concrete rationals, and for the branch structure of the calculators. -/

theorem intCeil_eq_neg_floor_neg (x : ℚ) : ⌈x⌉ = -⌊-x⌋ := by
  rw [Int.floor_neg, neg_neg]

theorem f64round_eq (x : ℚ) :
    f64round x = if 0 ≤ x then ⌊x + 1 / 2⌋ else -⌊-x + 1 / 2⌋ := by
  unfold f64round
  split
  · rfl
  · rw [show -x + 1 / 2 = -(x - 1 / 2) by ring, Int.floor_neg, neg_neg]

theorem powfq_natCast (x : ℚ) (n : ℕ) : powfq x (n : ℚ) = x ^ n := by
  simp [powfq, Rat.num_natCast, Rat.den_natCast]

theorem powfq_ofNat (x : ℚ) (n : ℕ) [n.AtLeastTwo] :
    powfq x (OfNat.ofNat n) = x ^ (OfNat.ofNat n : ℕ) := by
  rw [← Nat.cast_ofNat, powfq_natCast]

theorem ceilAsU32_eq (x : ℚ) (h0 : 0 ≤ ⌈x⌉) (h1 : ⌈x⌉ ≤ 2 ^ 32 - 1) :
    (ceilAsU32 x : ℤ) = ⌈x⌉ := by
  unfold ceilAsU32
  rw [min_eq_right h1, max_eq_right h0, Int.toNat_of_nonneg h0]

theorem debtPayoff_fields (lnq : ℚ → ℚ) (req : DebtPayoffRequest)
    (hp : req.balance * (req.interest_rate / 100 / 12)
        < req.monthly_payment + req.extra_payment) :
    (calculate_debt_payoff lnq req).months = ceilAsU32 (debtMonths lnq req)
    ∧ (calculate_debt_payoff lnq req).total_paid
        = round2 ((req.monthly_payment + req.extra_payment)
            * debtMonths lnq req)
    ∧ (calculate_debt_payoff lnq req).total_interest
        = round2 ((req.monthly_payment + req.extra_payment)
            * debtMonths lnq req - req.balance) := by
  have h' : ¬ (req.monthly_payment + req.extra_payment
      ≤ req.balance * (req.interest_rate / 100 / 12)) := not_le.mpr hp
  refine ⟨?_, ?_, ?_⟩ <;> simp [calculate_debt_payoff, h']

theorem investment_linear (req : InvestmentRequest)
    (h : req.annual_return ≤ 0) :
    (calculate_investment req).future_value
      = round2 (req.initial_amount
          + req.monthly_contribution * (asI32 (req.period * 12) : ℚ)) := by
  have h' : ¬ (0 : ℚ) < req.annual_return / 100 / 12 := by
    rw [not_lt]
    linarith
  simp [calculate_investment, h']

theorem foldl_max_zero (l : List ℚ) (h : ∀ v ∈ l, v = 0) :
    l.foldl max 0 = 0 := by
  induction l with
  | nil => rfl
  | cons v vs ih =>
    have hv : v = 0 := h v (by simp)
    rw [List.foldl_cons, hv, max_self]
    exact ih fun x hx => h x (by simp [hx])

/-! Claim theorems. -/

/-- C1: whenever `monthly_payment + extra_payment ≤ balance × (interest_rate/100/12)`,
`calculate_debt_payoff` returns the sentinel response `months = 999`,
`total_paid = 0`, `total_interest = 0` with the minimal chart
`"<svg></svg>"`; the result does not depend on the logarithm (`lnq` is
universally quantified, so the logarithm is not computed). -/
theorem debt_payoff_sentinel_branch (lnq : ℚ → ℚ) (req : DebtPayoffRequest)
    (h : req.monthly_payment + req.extra_payment
        ≤ req.balance * (req.interest_rate / 100 / 12)) :
    (calculate_debt_payoff lnq req).months = 999
    ∧ (calculate_debt_payoff lnq req).total_paid = 0
    ∧ (calculate_debt_payoff lnq req).total_interest = 0
    ∧ (calculate_debt_payoff lnq req).chart
        = ChartMarkup.rawSvg "<svg></svg>" := by
  refine ⟨?_, ?_, ?_, ?_⟩ <;> simp [calculate_debt_payoff, h]

/-- Witness for C1, at the claim's own instance: balance=10000,
interest_rate=12, monthly_payment=50, extra_payment=0. -/
theorem debt_payoff_sentinel_branch_witness :
    ((50 : ℚ) + 0 ≤ 10000 * ((12 : ℚ) / 100 / 12))
    ∧ (calculate_debt_payoff (fun _ => 0) ⟨10000, 12, 50, 0, "USD"⟩).months = 999
    ∧ (calculate_debt_payoff (fun _ => 0) ⟨10000, 12, 50, 0, "USD"⟩).total_paid = 0
    ∧ (calculate_debt_payoff (fun _ => 0) ⟨10000, 12, 50, 0, "USD"⟩).total_interest = 0 := by
  have h := debt_payoff_sentinel_branch (fun _ => 0) ⟨10000, 12, 50, 0, "USD"⟩
    (by norm_num)
  exact ⟨by norm_num, h.1, h.2.1, h.2.2.1⟩

/-- C2: for amount=100000, rate=5, term=30 the credit calculator returns
monthly_payment = 536.82, total_payment = 193255.78 and
overpayment = 93255.78 (annuity formula, rounded to 2 decimals). -/
theorem credit_annuity_example :
    (calculate_credit ⟨100000, 5, 30, "USD"⟩).monthly_payment = 536.82
    ∧ (calculate_credit ⟨100000, 5, 30, "USD"⟩).total_payment = 193255.78
    ∧ (calculate_credit ⟨100000, 5, 30, "USD"⟩).overpayment = 93255.78 := by
  refine ⟨?_, ?_, ?_⟩ <;>
    · simp only [calculate_credit]
      norm_num [round2, f64round_eq]
      rw [powfq_ofNat]
      norm_num

/-- C6: `get_currency_symbol` is a total pure function: the four known
codes map to their symbols and every other string maps to `"€"`. -/
theorem currency_symbol_total :
    get_currency_symbol "EUR" = "€" ∧ get_currency_symbol "USD" = "$"
    ∧ get_currency_symbol "UAH" = "₴" ∧ get_currency_symbol "BTC" = "₿"
    ∧ ∀ s : String, s ≠ "EUR" → s ≠ "USD" → s ≠ "UAH" → s ≠ "BTC" →
        get_currency_symbol s = "€" := by
  refine ⟨rfl, rfl, rfl, rfl, ?_⟩
  intro s h1 h2 h3 h4
  simp [get_currency_symbol, h1, h2, h3, h4]

/-- Witness for C6 at the unrecognized code "XXX". -/
theorem currency_symbol_total_witness :
    ("XXX" : String) ≠ "EUR" ∧ get_currency_symbol "XXX" = "€" :=
  ⟨by decide, currency_symbol_total.2.2.2.2 "XXX" (by decide) (by decide)
    (by decide) (by decide)⟩

/-- C8: with `monthly_contribution ≤ 0` the emergency-fund calculator
returns the sentinel −1 in `months_to_target` (no division), while
`target_amount` and `remaining_amount` are computed as usual. -/
theorem emergency_fund_sentinel (req : EmergencyFundRequest)
    (h : req.monthly_contribution ≤ 0) :
    (calculate_emergency_fund req).months_to_target = -1
    ∧ (calculate_emergency_fund req).target_amount
        = round2 (req.monthly_expenses * req.months_coverage)
    ∧ (calculate_emergency_fund req).remaining_amount
        = round2 (max (req.monthly_expenses * req.months_coverage
            - req.current_savings) 0) := by
  have h' : ¬ (0 : ℚ) < req.monthly_contribution := not_lt.mpr h
  refine ⟨?_, ?_, ?_⟩ <;> simp [calculate_emergency_fund, h']
  norm_num [round1, f64round_eq]

/-- Witness for C8: monthly_expenses=1000, months_coverage=3,
current_savings=500, monthly_contribution=0. -/
theorem emergency_fund_sentinel_witness :
    ((0 : ℚ) ≤ 0)
    ∧ (calculate_emergency_fund ⟨1000, 3, 500, 0, "EUR"⟩).months_to_target = -1
    ∧ (calculate_emergency_fund ⟨1000, 3, 500, 0, "EUR"⟩).target_amount = 3000
    ∧ (calculate_emergency_fund ⟨1000, 3, 500, 0, "EUR"⟩).remaining_amount = 2500 := by
  have h := emergency_fund_sentinel ⟨1000, 3, 500, 0, "EUR"⟩ le_rfl
  refine ⟨le_rfl, h.1, ?_, ?_⟩
  · rw [h.2.1]
    norm_num [round2, f64round_eq]
  · rw [h.2.2]
    norm_num [round2, f64round_eq, max_def]

/-- C9: with `term = 0` (so `n = 0`) the credit calculator takes the
zero fallback without dividing: monthly_payment = 0, total_payment = 0,
and overpayment is the rounding of `−amount`. -/
theorem credit_zero_term_guard (req : CreditRequest) (h : req.term = 0) :
    (calculate_credit req).monthly_payment = 0
    ∧ (calculate_credit req).total_payment = 0
    ∧ (calculate_credit req).overpayment = round2 (-req.amount) := by
  refine ⟨?_, ?_, ?_⟩ <;> simp [calculate_credit, h] <;>
    norm_num [round2, f64round_eq]

/-- Witness for C9: amount=5000, rate=7, term=0. -/
theorem credit_zero_term_guard_witness :
    ((⟨5000, 7, 0, "USD"⟩ : CreditRequest).term = 0)
    ∧ (calculate_credit ⟨5000, 7, 0, "USD"⟩).monthly_payment = 0
    ∧ (calculate_credit ⟨5000, 7, 0, "USD"⟩).total_payment = 0
    ∧ (calculate_credit ⟨5000, 7, 0, "USD"⟩).overpayment = -5000 := by
  have h := credit_zero_term_guard ⟨5000, 7, 0, "USD"⟩ rfl
  refine ⟨rfl, h.1, h.2.1, ?_⟩
  rw [h.2.2]
  norm_num [round2, f64round_eq]

/-- C3 counterexample: at initial_amount=0, monthly_contribution=10,
annual_return=0, period=0.1 the code truncates `period × 12 = 1.2` to
`n = 1`, so future_value is 10, while the claim's
`initial_amount + monthly_contribution × (period × 12)` is 12. -/
theorem investment_zero_rate_cex :
    (calculate_investment ⟨0, 10, 0, 1 / 10, "USD"⟩).future_value = 10
    ∧ (0 : ℚ) + 10 * (1 / 10 * 12) = 12
    ∧ (10 : ℚ) ≠ 12 := by
  refine ⟨?_, by norm_num, by norm_num⟩
  simp only [calculate_investment]
  norm_num [asI32, ratTrunc, round2, f64round_eq, min_def, max_def]

/-- C3 amended: with `annual_return = 0` the investment calculator takes
the linear-sum branch, and `future_value` is the two-decimal rounding of
`initial_amount + monthly_contribution × n` with `n = (period × 12)`
truncated by the `as i32` cast. -/
theorem investment_zero_rate_linear (req : InvestmentRequest)
    (h : req.annual_return = 0) :
    (calculate_investment req).future_value
      = round2 (req.initial_amount
          + req.monthly_contribution * (asI32 (req.period * 12) : ℚ)) :=
  investment_linear req h.le

/-- Witness for C3 amended: initial=100, contribution=20, return=0,
period=2 gives future_value 100 + 20×24 = 580. -/
theorem investment_zero_rate_linear_witness :
    ((⟨100, 20, 0, 2, "USD"⟩ : InvestmentRequest).annual_return = 0)
    ∧ (calculate_investment ⟨100, 20, 0, 2, "USD"⟩).future_value = 580 := by
  have h := investment_zero_rate_linear ⟨100, 20, 0, 2, "USD"⟩ rfl
  refine ⟨rfl, ?_⟩
  rw [h]
  norm_num [asI32, ratTrunc, round2, f64round_eq, min_def, max_def]

/-- C10 counterexample: at initial_amount=0, monthly_contribution=10,
annual_return=−12, period=0.1 the code truncates `period × 12 = 1.2` to
`n = 1`, so future_value is 10, while the claim's
`initial_amount + monthly_contribution × (period × 12)` is 12. -/
theorem investment_negative_rate_cex :
    (calculate_investment ⟨0, 10, -12, 1 / 10, "USD"⟩).future_value = 10
    ∧ (0 : ℚ) + 10 * (1 / 10 * 12) = 12
    ∧ (10 : ℚ) ≠ 12 := by
  refine ⟨?_, by norm_num, by norm_num⟩
  simp only [calculate_investment]
  norm_num [asI32, ratTrunc, round2, f64round_eq, min_def, max_def]

/-- C10 amended: with `annual_return < 0` the investment calculator takes
the linear-sum branch (the compound formula is not applied), and
`future_value` is the two-decimal rounding of
`initial_amount + monthly_contribution × n` with `n = (period × 12)`
truncated by the `as i32` cast. -/
theorem investment_negative_rate_linear (req : InvestmentRequest)
    (h : req.annual_return < 0) :
    (calculate_investment req).future_value
      = round2 (req.initial_amount
          + req.monthly_contribution * (asI32 (req.period * 12) : ℚ)) :=
  investment_linear req h.le

/-- Witness for C10 amended: initial=100, contribution=20, return=−6,
period=2 gives future_value 100 + 20×24 = 580. -/
theorem investment_negative_rate_linear_witness :
    ((⟨100, 20, -6, 2, "USD"⟩ : InvestmentRequest).annual_return < 0)
    ∧ (calculate_investment ⟨100, 20, -6, 2, "USD"⟩).future_value = 580 := by
  have h := investment_negative_rate_linear ⟨100, 20, -6, 2, "USD"⟩ (by norm_num)
  refine ⟨by norm_num, ?_⟩
  rw [h]
  norm_num [asI32, ratTrunc, round2, f64round_eq, min_def, max_def]

/-- C4: on the amortizing branch (`balance × r < p`), with the month
count in `u32` range, the `months` field is the ceiling of
`ln(p/(p − balance×r)) / ln(1+r)` (that quotient is `debtMonths`),
`total_paid` is `p × months` (continuous months, as in the source and
the spec's formula line) rounded to 2 decimals, and `total_interest` is
`total_paid − balance` rounded to 2 decimals. -/
theorem debt_payoff_amortizing_formula (lnq : ℚ → ℚ)
    (req : DebtPayoffRequest)
    (hp : req.balance * (req.interest_rate / 100 / 12)
        < req.monthly_payment + req.extra_payment)
    (h0 : 0 ≤ ⌈debtMonths lnq req⌉)
    (h1 : ⌈debtMonths lnq req⌉ ≤ 2 ^ 32 - 1) :
    ((calculate_debt_payoff lnq req).months : ℤ) = ⌈debtMonths lnq req⌉
    ∧ (calculate_debt_payoff lnq req).total_paid
        = round2 ((req.monthly_payment + req.extra_payment)
            * debtMonths lnq req)
    ∧ (calculate_debt_payoff lnq req).total_interest
        = round2 ((req.monthly_payment + req.extra_payment)
            * debtMonths lnq req - req.balance) := by
  obtain ⟨hm, ht, hi⟩ := debtPayoff_fields lnq req hp
  exact ⟨by rw [hm, ceilAsU32_eq _ h0 h1], ht, hi⟩

/-- Witness for C4: balance=1000, interest_rate=12, monthly_payment=110,
extra_payment=0, with the logarithm instantiated to `x ↦ x − 1`:
the continuous month count is 10, so months=10, total_paid=1100,
total_interest=100. -/
theorem debt_payoff_amortizing_formula_witness :
    ((1000 : ℚ) * ((12 : ℚ) / 100 / 12) < 110 + 0)
    ∧ (calculate_debt_payoff (fun x => x - 1) ⟨1000, 12, 110, 0, "USD"⟩).months = 10
    ∧ (calculate_debt_payoff (fun x => x - 1) ⟨1000, 12, 110, 0, "USD"⟩).total_paid = 1100
    ∧ (calculate_debt_payoff (fun x => x - 1) ⟨1000, 12, 110, 0, "USD"⟩).total_interest = 100 := by
  have hm : debtMonths (fun x => x - 1) ⟨1000, 12, 110, 0, "USD"⟩ = 10 := by
    norm_num [debtMonths]
  have h := debt_payoff_amortizing_formula (fun x => x - 1)
    ⟨1000, 12, 110, 0, "USD"⟩ (by norm_num)
    (by rw [hm]; norm_num) (by rw [hm]; norm_num)
  obtain ⟨h1, h2, h3⟩ := h
  rw [hm] at h1 h2 h3
  refine ⟨by norm_num, ?_, ?_, ?_⟩
  · have : ((calculate_debt_payoff (fun x => x - 1)
        ⟨1000, 12, 110, 0, "USD"⟩).months : ℤ) = 10 := by
      rw [h1]; norm_num
    exact_mod_cast this
  · rw [h2]; norm_num [round2, f64round_eq]
  · rw [h3]; norm_num [round2, f64round_eq]

/-- C7 counterexample: for monthly_expenses=1000, months_coverage=3,
current_savings=0, monthly_contribution=700 the emergency-fund
`months_to_target` is 30/7 rounded to one decimal, 4.3 — not the
ceiling (5) of the continuous computation, and not an integer. -/
theorem month_count_cex :
    (calculate_emergency_fund ⟨1000, 3, 0, 700, "USD"⟩).months_to_target = 43 / 10
    ∧ (calculate_emergency_fund ⟨1000, 3, 0, 700, "USD"⟩).months_to_target
        ≠ ((⌈(1000 * 3 - 0 : ℚ) / 700⌉ : ℤ) : ℚ) := by
  have h : (calculate_emergency_fund ⟨1000, 3, 0, 700, "USD"⟩).months_to_target
      = 43 / 10 := by
    simp only [calculate_emergency_fund]
    norm_num [round1, f64round_eq, max_def]
  refine ⟨h, ?_⟩
  rw [h, intCeil_eq_neg_floor_neg]
  norm_num

/-- C7 amended: the debt-payoff `months` field is an integer obtained as
the ceiling of the continuous computation, but the emergency-fund
`months_to_target` field is `remaining / monthly_contribution` rounded
to one decimal place, not a ceiled integer. -/
theorem month_count_fields :
    (∀ (lnq : ℚ → ℚ) (req : DebtPayoffRequest),
      req.balance * (req.interest_rate / 100 / 12)
          < req.monthly_payment + req.extra_payment →
      0 ≤ ⌈debtMonths lnq req⌉ → ⌈debtMonths lnq req⌉ ≤ 2 ^ 32 - 1 →
      ((calculate_debt_payoff lnq req).months : ℤ) = ⌈debtMonths lnq req⌉)
    ∧ (∀ req : EmergencyFundRequest, 0 < req.monthly_contribution →
        (calculate_emergency_fund req).months_to_target
          = round1 (max (req.monthly_expenses * req.months_coverage
              - req.current_savings) 0 / req.monthly_contribution)) := by
  constructor
  · intro lnq req hp h0 h1
    rw [(debtPayoff_fields lnq req hp).1, ceilAsU32_eq _ h0 h1]
  · intro req h
    simp [calculate_emergency_fund, h]

/-- Witness for C7 amended, at concrete inputs on both conjuncts. -/
theorem month_count_fields_witness :
    (calculate_debt_payoff (fun x => x * 2) ⟨1000, 12, 110, 0, "USD"⟩).months = 2
    ∧ (calculate_emergency_fund ⟨1000, 3, 0, 700, "USD"⟩).months_to_target = 43 / 10 := by
  have hm : debtMonths (fun x => x * 2) ⟨1000, 12, 110, 0, "USD"⟩ = 110 / 101 := by
    norm_num [debtMonths]
  constructor
  · have h := month_count_fields.1 (fun x => x * 2) ⟨1000, 12, 110, 0, "USD"⟩
      (by norm_num)
      (by rw [hm, intCeil_eq_neg_floor_neg]; norm_num)
      (by rw [hm, intCeil_eq_neg_floor_neg]; norm_num)
    rw [hm, intCeil_eq_neg_floor_neg] at h
    norm_num at h
    exact_mod_cast h
  · have h := month_count_fields.2 ⟨1000, 3, 0, 700, "USD"⟩ (by norm_num)
    rw [h]
    norm_num [round1, f64round_eq, max_def]

/-- C5 counterexample: for values [2, 3] the scale is 220/3 and the
first bar's emitted height is the truncation 146 of 2 × 220/3 = 146.67,
not the claimed rounding 147. -/
theorem bar_height_cex :
    ((create_bar_chart "t" ["a", "b"] [2, 3] []).bars.getD 0 default).h = 146
    ∧ f64round ((2 : ℚ) * chartScale [2, 3]) = 147
    ∧ (146 : ℤ) ≠ 147 := by
  refine ⟨?_, ?_, by norm_num⟩
  · simp only [create_bar_chart, ChartMarkup.bars]
    rw [List.getD_eq_getElem _ _ (by simp [List.length_zip]),
      List.getElem_map, List.getElem_enum, List.getElem_zip]
    norm_num [asI32, ratTrunc, chartScale, chartMaxVal, min_def, max_def]
  · norm_num [f64round_eq, chartScale, chartMaxVal, max_def]

/-- C5 amended: each emitted bar's pixel height is the `as i32`
truncation (not the rounding) of `values[i] × scale`, with
`scale = 220 / max_value` if `max_value > 0` and `1` otherwise; for an
all-zero values series every bar has height 0. -/
theorem bar_height_trunc (title : String) (labels : List String)
    (values : List ℚ) (colors : List String) :
    (∀ i, i < labels.length → i < values.length →
      ((create_bar_chart title labels values colors).bars.getD i default).h
        = asI32 (values.getD i 0 * chartScale values))
    ∧ ((∀ v ∈ values, v = 0) →
        ∀ b ∈ (create_bar_chart title labels values colors).bars, b.h = 0) := by
  constructor
  · intro i hil hiv
    simp only [create_bar_chart, ChartMarkup.bars]
    rw [List.getD_eq_getElem _ _ (by simp [List.length_zip]; omega),
      List.getElem_map, List.getElem_enum, List.getElem_zip,
      List.getD_eq_getElem _ _ hiv]
  · intro hz b hbm
    simp only [create_bar_chart, ChartMarkup.bars] at hbm
    rw [List.mem_map] at hbm
    obtain ⟨p, hp, rfl⟩ := hbm
    rw [List.mem_iff_getElem] at hp
    obtain ⟨n, hn, rfl⟩ := hp
    have hnv : n < values.length := by
      simp [List.length_zip] at hn
      omega
    rw [List.getElem_enum, List.getElem_zip]
    have h0 : values.get ⟨n, hnv⟩ = 0 := hz _ (List.get_mem values n hnv)
    have hscale : chartScale values = 1 := by
      rw [chartScale, chartMaxVal, foldl_max_zero values hz]
      norm_num
    show asI32 (values.get ⟨n, hnv⟩ * chartScale values) = 0
    rw [h0, hscale]
    norm_num [asI32, ratTrunc, min_def, max_def]

/-- Witness for C5 amended: a single bar with value 5 scales to the full
chart height 220, and an all-zero two-bar series renders at height 0. -/
theorem bar_height_trunc_witness :
    ((create_bar_chart "t" ["a"] [5] []).bars.getD 0 default).h = 220
    ∧ ∀ b ∈ (create_bar_chart "t2" ["a", "b"] [0, 0] []).bars, b.h = 0 := by
  have h1 := (bar_height_trunc "t" ["a"] [5] []).1 0 (by norm_num) (by norm_num)
  have h2 := (bar_height_trunc "t2" ["a", "b"] [0, 0] []).2 (by
    intro v hv
    simp at hv
    simp [hv])
  refine ⟨?_, h2⟩
  rw [h1]
  norm_num [asI32, ratTrunc, chartScale, chartMaxVal, max_def, min_def]

end TelegramGame
